import Mathlib

/-!
Shallow embedding of the turn-planning engine in `algo_strategy.py`
(repository Arcitan/Indigo).  The `AlgoStrategy` class is modelled as a
persistent state (`AlgoState`) threaded through per-turn planning steps;
each planning step reads a per-turn `GameState` (the engine's turn record
plus the black-box collaborators `find_path_to_edge` and `get_attackers`)
and emits a list of `SpawnAttempt` records, one per `attempt_spawn` call.
Placement success/failure and resource accounting happen inside the
external `gamelib` collaborator; the claims under study are about which
attempts are issued and how the persistent state evolves, so attempts are
recorded rather than resolved.  Stationary placements draw on the cores
pool, so the bits pool read at the offensive-spawn check equals the
turn's initial bits pool.
-/

/-- Board coordinates.  All locations this module manipulates lie on the
28×28 diamond with non-negative coordinates, so natural-number pairs are a
faithful image of the Python integer pairs (the only subtraction, `27 - i`,
has `i ≤ 26`). -/
abbrev Loc := ℕ × ℕ

/-- The six configured unit archetypes (`config["unitInformation"][0..5]`,
bound to the globals FILTER, ENCRYPTOR, DESTRUCTOR, PING, EMP, SCRAMBLER in
`on_game_start`). -/
inductive UnitType where
  | FILTER
  | ENCRYPTOR
  | DESTRUCTOR
  | PING
  | EMP
  | SCRAMBLER
deriving DecidableEq, Repr

/-- The slice of the match-start configuration the planner reads:
`gamelib.GameUnit(kind, config).damage`, the per-shot damage configured for
each unit kind. -/
structure Config where
  damage : UnitType → ℕ

/-- One `game_state.attempt_spawn(unit_type, locations, num)` call.
`num` defaults to 1 in gamelib when omitted. -/
structure SpawnAttempt where
  unit_type : UnitType
  locations : List Loc
  num : ℕ
deriving DecidableEq, Repr

/-- The per-turn game state handed to `funnel_strategy`: the turn number,
the mobile-spawn resource pool `get_resource(BITS)` (a numeric pool,
modelled as a rational), and the two black-box board queries used by the
risk estimator (`find_path_to_edge`, `get_attackers`).  `get_attackers`
returns the stationary units currently able to deal damage to a
hypothetical unit at the location; only the unit kind of each attacker is
relevant to this module. -/
structure GameState where
  turn_number : ℕ
  bits : ℚ
  find_path_to_edge : Loc → List Loc
  get_attackers : Loc → List UnitType

/-- The persistent fields of `AlgoStrategy` that survive across turns:
`self.scored_on_locations`, `self.funnel_left`, and `self.best_location`
(`none` models the attribute never having been assigned). -/
structure AlgoState where
  scored_on_locations : List Loc
  funnel_left : Bool
  best_location : Option Loc
deriving DecidableEq, Repr

/-- State after `on_game_start`: empty breach log, `funnel_left = True`,
and `best_location` not yet assigned. -/
def initState : AlgoState :=
  { scored_on_locations := [], funnel_left := true, best_location := none }

/-- Failure of a planning pass: the Python code raises at these points
(`min([])` on an empty candidate list; `AttributeError` on reading
`self.best_location` before turn 3 assigned it). -/
inductive PlanError where
  | noCandidates
  | unassignedBestLocation
deriving DecidableEq, Repr

/-- The gap columns shared by the hardcoded defense rows:
`[3, 6, 10, 12, 15, 17, 21, 24]`. -/
def gap_columns : List ℕ := [3, 6, 10, 12, 15, 17, 21, 24]

/-- Destructor row of `build_defenses`:
`[[x, 13] for x in range(28) if x not in [3, 6, 10, 12, 15, 17, 21, 24]]`. -/
def build_defenses_locations : List Loc :=
  ((List.range 28).filter (fun x => x ∉ gap_columns)).map (fun x => (x, 13))

/-- `build_defenses`: one `attempt_spawn(DESTRUCTOR, destructor_locations)`. -/
def build_defenses : List SpawnAttempt :=
  [⟨UnitType.DESTRUCTOR, build_defenses_locations, 1⟩]

/-- `build_reactive_defense`: for each logged breach location, one
`attempt_spawn(DESTRUCTOR, [location[0], location[1] + 3])`. -/
def build_reactive_defense (scored_on_locations : List Loc) : List SpawnAttempt :=
  scored_on_locations.map (fun l => ⟨UnitType.DESTRUCTOR, [(l.1, l.2 + 3)], 1⟩)

/-- Target row of the FIRST definition of `build_additional_defenses`
(lines 132–137): `i` over `range(1, 27)`, gap columns skipped, pairs
`[i, 12]` and `[27 - i, 12]`.  This definition is shadowed at runtime by
the second one below. -/
def build_additional_defenses_first_locations : List Loc :=
  ((List.range' 1 26).filter (fun i => i ∉ gap_columns)).flatMap
    (fun i => [(i, 12), (27 - i, 12)])

/-- Target row of the SECOND definition of `build_additional_defenses`
(lines 153–158), the one Python keeps: `i` over `range(1, 13)`, gap
columns skipped, pairs `[i, 12]` and `[27 - i, 12]`. -/
def build_additional_defenses_locations : List Loc :=
  ((List.range' 1 12).filter (fun i => i ∉ gap_columns)).flatMap
    (fun i => [(i, 12), (27 - i, 12)])

/-- The effective `build_additional_defenses` (the second definition
shadows the first): one `attempt_spawn(DESTRUCTOR, destructor_locations)`. -/
def build_additional_defenses : List SpawnAttempt :=
  [⟨UnitType.DESTRUCTOR, build_additional_defenses_locations, 1⟩]

/-- The first (shadowed) `build_additional_defenses` as it would execute. -/
def build_additional_defenses_first : List SpawnAttempt :=
  [⟨UnitType.DESTRUCTOR, build_additional_defenses_first_locations, 1⟩]

/-- Encryptor diagonal of `build_better_tunnel`. -/
def build_better_tunnel_locations : List Loc :=
  [(5, 11), (6, 10), (7, 9), (8, 8), (9, 7), (10, 6), (11, 5), (12, 4),
   (14, 3), (15, 4), (16, 5), (17, 6), (18, 7), (19, 8)]

/-- `build_better_tunnel`: one `attempt_spawn(ENCRYPTOR, el)`. -/
def build_better_tunnel : List SpawnAttempt :=
  [⟨UnitType.ENCRYPTOR, build_better_tunnel_locations, 1⟩]

/-- Destructor row of `build_defenses3`: `i` over `range(2, 26)`, gap
columns skipped, pairs `[i, 11]` and `[27 - i, 11]`. -/
def build_defenses3_locations : List Loc :=
  ((List.range' 2 24).filter (fun i => i ∉ gap_columns)).flatMap
    (fun i => [(i, 11), (27 - i, 11)])

/-- `build_defenses3`: one `attempt_spawn(DESTRUCTOR, destructor_locations)`. -/
def build_defenses3 : List SpawnAttempt :=
  [⟨UnitType.DESTRUCTOR, build_defenses3_locations, 1⟩]

/-- Encryptor locations of `build_right_funnel`. -/
def build_right_funnel_locations : List Loc :=
  [(3, 11), (4, 11), (5, 10), (6, 9), (7, 8), (8, 7), (9, 6), (10, 5), (11, 4),
   (12, 3), (13, 2), (14, 2), (15, 3), (16, 4), (17, 5), (18, 6), (19, 7),
   (20, 8)]

/-- `build_right_funnel`: one `attempt_spawn(ENCRYPTOR, enc_locations)`. -/
def build_right_funnel : List SpawnAttempt :=
  [⟨UnitType.ENCRYPTOR, build_right_funnel_locations, 1⟩]

/-- Encryptor locations of `build_left_funnel`. -/
def build_left_funnel_locations : List Loc :=
  [(24, 11), (23, 11), (22, 10), (21, 9), (20, 8), (19, 7), (18, 6), (17, 5),
   (16, 4), (15, 3), (14, 2), (12, 3), (11, 4), (10, 5), (9, 6), (8, 7), (7, 8)]

/-- `build_left_funnel`: one `attempt_spawn(ENCRYPTOR, enc_locations)`. -/
def build_left_funnel : List SpawnAttempt :=
  [⟨UnitType.ENCRYPTOR, build_left_funnel_locations, 1⟩]

/-- The fixed scrambler deploy pair of `stall_with_scramblers`. -/
def deploy_locations : List Loc := [(9, 4), (18, 4)]

/-- Maps `random.randint(0, 1)` picks to the deploy pair. -/
def deploy_pick (i : Fin 2) : Loc := if (i : ℕ) = 0 then (9, 4) else (18, 4)

/-- `stall_with_scramblers`: the loop runs while `count < quarter` with
`quarter = get_resource(BITS) // 4 + 1` (floor division) and the deploy
list never shrinks, so exactly `max 0 (⌊bits / 4⌋ + 1)` scrambler attempts
are issued, each at the randomly picked member of the deploy pair.  The
random choices are injected as `picks`. -/
def stall_with_scramblers (gs : GameState) (picks : ℕ → Fin 2) : List SpawnAttempt :=
  (List.range (⌊gs.bits / 4⌋ + 1).toNat).map
    (fun k => ⟨UnitType.SCRAMBLER, [deploy_pick (picks k)], 1⟩)

/-- Risk score of one candidate entry location (body of the loop in
`least_damage_spawn_location`): over the traced path, accumulate
`len(get_attackers(path_location, 0)) * GameUnit(DESTRUCTOR, config).damage`. -/
def path_damage (gs : GameState) (cfg : Config) (location : Loc) : ℕ :=
  ((gs.find_path_to_edge location).map
    (fun p => (gs.get_attackers p).length * cfg.damage UnitType.DESTRUCTOR)).sum

/-- `least_damage_spawn_location`: compute each candidate's damage, then
return `location_options[damages.index(min(damages))]` — the first
candidate attaining the minimum damage.  `none` models the `ValueError`
Python raises on an empty candidate list. -/
def least_damage_spawn_location (gs : GameState) (cfg : Config)
    (location_options : List Loc) : Option Loc :=
  let damages := location_options.map (path_damage gs cfg)
  match damages.min? with
  | none => none
  | some m => location_options[damages.indexOf m]?

/-- Risk score written from the spec's words (§4.2 step 2): "For every
traversed Location, count attacking stationary structures able to reach it
…, multiply by each such structure's configured per-shot damage, and
accumulate" — i.e. each attacker contributes its own configured damage.
Compared against `path_damage` for the refinement claim. -/
def spec_path_damage (gs : GameState) (cfg : Config) (location : Loc) : ℕ :=
  ((gs.find_path_to_edge location).map
    (fun p => ((gs.get_attackers p).map (fun u => cfg.damage u)).sum)).sum

/-- The two fixed candidate entry locations evaluated on turn 3. -/
def ping_spawn_location_options : List Loc := [(3, 10), (24, 10)]

/-- `funnel_strategy` for one turn: base defenses, reactive defenses, then
the stall / decide / committed branch on the turn number.  On turns after
3, if the bits pool clears the threshold 10 the code reads
`self.best_location`; reading it unassigned is the `AttributeError`
modelled by `PlanError.unassignedBestLocation`. -/
def funnel_strategy (cfg : Config) (gs : GameState) (picks : ℕ → Fin 2)
    (s : AlgoState) : Except PlanError (AlgoState × List SpawnAttempt) :=
  let base := build_defenses ++ build_reactive_defense s.scored_on_locations
  if gs.turn_number < 3 then
    .ok (s, base ++ stall_with_scramblers gs picks)
  else if gs.turn_number = 3 then
    match least_damage_spawn_location gs cfg ping_spawn_location_options with
    | none => .error PlanError.noCandidates
    | some bl =>
      if bl = (2, 11) then
        .ok ({ s with best_location := some bl, funnel_left := true },
             base ++ build_left_funnel)
      else
        .ok ({ s with best_location := some bl, funnel_left := false },
             base ++ build_right_funnel)
  else
    let funnel := if s.funnel_left then build_left_funnel else build_right_funnel
    let fortify := build_additional_defenses ++ build_better_tunnel ++ build_defenses3
    if 10 ≤ gs.bits then
      match s.best_location with
      | none => .error PlanError.unassignedBestLocation
      | some bl =>
          .ok (s, base ++ funnel ++ fortify ++ [⟨UnitType.PING, [bl], 1000⟩])
    else
      .ok (s, base ++ funnel ++ fortify)

/-- One breach tuple from an action frame's `events["breach"]`: the breach
location (`breach[0]`) and the owner code of the breaching unit
(`breach[4]`: 1 = yourself, 2 = opponent). -/
structure BreachEvent where
  location : Loc
  owner : ℕ
deriving DecidableEq, Repr

/-- `on_action_frame`: for every breach whose breaching unit is not our own
(`breach[4] != 1`), append the breach location to
`self.scored_on_locations`, in event order. -/
def on_action_frame (breaches : List BreachEvent) (s : AlgoState) : AlgoState :=
  { s with scored_on_locations :=
      s.scored_on_locations ++ (breaches.filter (fun b => b.owner ≠ 1)).map (·.location) }

/-- An engine message: either a per-turn planning invocation (`on_turn`,
which runs `funnel_strategy`) or a batch of out-of-band action-frame
breach events (`on_action_frame`). -/
inductive Event where
  | turn (gs : GameState) (picks : ℕ → Fin 2)
  | frame (breaches : List BreachEvent)

/-- Runs a sequence of engine messages from a persistent state, collecting
every spawn attempt issued; a planning failure aborts the run as the
uncaught Python exception would. -/
def runEvents (cfg : Config) :
    List Event → AlgoState → Except PlanError (AlgoState × List SpawnAttempt)
  | [], s => .ok (s, [])
  | Event.frame breaches :: rest, s => runEvents cfg rest (on_action_frame breaches s)
  | Event.turn gs picks :: rest, s =>
    match funnel_strategy cfg gs picks s with
    | .error e => .error e
    | .ok (s', acts) =>
      match runEvents cfg rest s' with
      | .error e => .error e
      | .ok (s'', acts') => .ok (s'', acts ++ acts')

/-- Configuration fixture: destructors deal 4 damage per shot, the other
stationary kinds deal none. -/
def cfg0 : Config := ⟨fun u => match u with | UnitType.DESTRUCTOR => 4 | _ => 0⟩

/-- Random-pick fixture: always choose the first deploy location. -/
def picks0 : ℕ → Fin 2 := fun _ => 0

/-- Turn-3 board fixture with zero stationary defenders: each candidate's
path is a single cell and no cell has attackers, so both risk scores are 0. -/
def zeroDefenderGS : GameState :=
  { turn_number := 3, bits := 5,
    find_path_to_edge := fun l => [l],
    get_attackers := fun _ => [] }

/-- Turn-3 board fixture where the first candidate has no legal path while
the second's one-cell path is covered by a destructor. -/
def noPathGS : GameState :=
  { turn_number := 3, bits := 0,
    find_path_to_edge := fun l => if l = (3, 10) then [] else [(24, 10)],
    get_attackers := fun l => if l = (24, 10) then [UnitType.DESTRUCTOR] else [] }

/-- Board fixture whose candidate path (3,10) ↦ [(3,11), (3,12)] is covered
by one destructor on the first cell and two on the second. -/
def destructorRowGS : GameState :=
  { turn_number := 3, bits := 0,
    find_path_to_edge := fun l => if l = (3, 10) then [(3, 11), (3, 12)] else [l],
    get_attackers := fun l =>
      if l = (3, 11) then [UnitType.DESTRUCTOR]
      else if l = (3, 12) then [UnitType.DESTRUCTOR, UnitType.DESTRUCTOR]
      else [] }

/-- Board fixture like `zeroDefenderGS` but with one destructor covering
the left candidate's cell. -/
def oneDefenderGS : GameState :=
  { turn_number := 3, bits := 5,
    find_path_to_edge := fun l => [l],
    get_attackers := fun l => if l = (3, 10) then [UnitType.DESTRUCTOR] else [] }

/-- Post-commitment turn fixture: turn 5 with the bits pool exactly at the
spawn threshold. -/
def postCommitGS : GameState :=
  { turn_number := 5, bits := 10,
    find_path_to_edge := fun l => [l],
    get_attackers := fun _ => [] }

/-- Post-commitment turn fixture below the spawn threshold and with no
turn 3 ever having run (used with `initState`). -/
def lowBitsGS : GameState :=
  { turn_number := 4, bits := 9,
    find_path_to_edge := fun l => [l],
    get_attackers := fun _ => [] }

/-- A persistent state as turn 3 would leave it on the stock board: funnel
committed right, spawn location the first candidate. -/
def committedState : AlgoState :=
  { scored_on_locations := [], funnel_left := false, best_location := some (3, 10) }

/-- The single encryptor attempt `build_left_funnel` issues. -/
def left_funnel_attempt : SpawnAttempt :=
  ⟨UnitType.ENCRYPTOR, build_left_funnel_locations, 1⟩

/-- The single encryptor attempt `build_right_funnel` issues. -/
def right_funnel_attempt : SpawnAttempt :=
  ⟨UnitType.ENCRYPTOR, build_right_funnel_locations, 1⟩

/-! ### Helper lemmas -/

/-- `min(damages)` followed by `damages.index(...)` over a two-candidate
list always lands on one of the two candidates. -/
lemma least_damage_spawn_location_pair (gs : GameState) (cfg : Config) (p q : Loc) :
    least_damage_spawn_location gs cfg [p, q] = some p ∨
    least_damage_spawn_location gs cfg [p, q] = some q := by
  simp only [least_damage_spawn_location, List.map_cons, List.map_nil, List.min?,
    List.foldl_cons, List.foldl_nil]
  rcases le_or_lt (path_damage gs cfg p) (path_damage gs cfg q) with h | h
  · left
    rw [min_eq_left h, List.indexOf_cons_self]
    rfl
  · right
    rw [min_eq_right h.le, List.indexOf_cons_ne _ h.ne', List.indexOf_cons_self]
    rfl

/-- A planning pass on any turn other than the decision turn returns the
persistent state unchanged. -/
lemma funnel_strategy_ok_state {cfg : Config} {gs : GameState} {picks : ℕ → Fin 2}
    {s s' : AlgoState} {acts : List SpawnAttempt}
    (h3 : gs.turn_number ≠ 3) (h : funnel_strategy cfg gs picks s = .ok (s', acts)) :
    s' = s := by
  simp only [funnel_strategy] at h
  by_cases hlt : gs.turn_number < 3
  · simp only [if_pos hlt, Except.ok.injEq, Prod.mk.injEq] at h
    exact h.1.symm
  · simp only [if_neg hlt, if_neg h3] at h
    by_cases hb : 10 ≤ gs.bits
    · rw [if_pos hb] at h
      cases hbl : s.best_location with
      | none => rw [hbl] at h; simp at h
      | some bl =>
        rw [hbl] at h
        simp only [Except.ok.injEq, Prod.mk.injEq] at h
        exact h.1.symm
    · simp only [if_neg hb, Except.ok.injEq, Prod.mk.injEq] at h
      exact h.1.symm

/-- Running any sequence of engine messages that contains no decision turn
leaves the funnel commitment fields untouched. -/
lemma runEvents_ok_commitment (cfg : Config) (es : List Event) :
    ∀ (s : AlgoState) (r : AlgoState × List SpawnAttempt),
      (∀ gs picks, Event.turn gs picks ∈ es → gs.turn_number ≠ 3) →
      runEvents cfg es s = .ok r →
      r.1.funnel_left = s.funnel_left ∧ r.1.best_location = s.best_location := by
  induction es with
  | nil =>
    intro s r _ h
    simp only [runEvents, Except.ok.injEq] at h
    rw [← h]
    exact ⟨rfl, rfl⟩
  | cons e rest ih =>
    intro s r hno h
    cases e with
    | frame b =>
      have h' : runEvents cfg rest (on_action_frame b s) = .ok r := by
        simpa only [runEvents] using h
      have hrec := ih (on_action_frame b s) r
        (fun gs picks hm => hno gs picks (List.mem_cons_of_mem _ hm)) h'
      simpa only [on_action_frame] using hrec
    | turn gs picks =>
      have hne : gs.turn_number ≠ 3 := hno gs picks (List.mem_cons_self _ _)
      simp only [runEvents] at h
      cases hf : funnel_strategy cfg gs picks s with
      | error e =>
        rw [hf] at h
        exact absurd h (by simp)
      | ok pr =>
        obtain ⟨s', acts⟩ := pr
        rw [hf] at h
        dsimp only at h
        cases hr : runEvents cfg rest s' with
        | error e =>
          rw [hr] at h
          exact absurd h (by simp)
        | ok q =>
          obtain ⟨s'', acts'⟩ := q
          rw [hr] at h
          simp only [Except.ok.injEq] at h
          have hst : s' = s := funnel_strategy_ok_state hne hf
          have hrec := ih s' (s'', acts')
            (fun gs2 picks2 hm => hno gs2 picks2 (List.mem_cons_of_mem _ hm)) hr
          subst h
          rw [hst] at hrec
          exact ⟨hrec.1, hrec.2⟩

/-- Every attempt of the base pass (fixed destructor row plus reactive
reinforcement) places destructors. -/
lemma mem_base_unit {a : SpawnAttempt} {scored : List Loc}
    (h : a ∈ build_defenses ++ build_reactive_defense scored) :
    a.unit_type = UnitType.DESTRUCTOR := by
  rcases List.mem_append.1 h with h | h
  · simp only [build_defenses, List.mem_singleton] at h
    rw [h]
  · simp only [build_reactive_defense, List.mem_map] at h
    obtain ⟨l, -, h⟩ := h
    rw [← h]

/-- The three fortification passes issue exactly these three attempts. -/
lemma mem_fortify_cases {a : SpawnAttempt}
    (h : a ∈ build_additional_defenses ++ build_better_tunnel ++ build_defenses3) :
    a = ⟨UnitType.DESTRUCTOR, build_additional_defenses_locations, 1⟩
    ∨ a = ⟨UnitType.ENCRYPTOR, build_better_tunnel_locations, 1⟩
    ∨ a = ⟨UnitType.DESTRUCTOR, build_defenses3_locations, 1⟩ := by
  simp only [build_additional_defenses, build_better_tunnel, build_defenses3,
    List.mem_append, List.mem_singleton] at h
  tauto

lemma left_not_mem_base (scored : List Loc) :
    left_funnel_attempt ∉ build_defenses ++ build_reactive_defense scored := fun h => by
  simpa [left_funnel_attempt] using mem_base_unit h

lemma right_not_mem_base (scored : List Loc) :
    right_funnel_attempt ∉ build_defenses ++ build_reactive_defense scored := fun h => by
  simpa [right_funnel_attempt] using mem_base_unit h

lemma left_not_mem_fortify :
    left_funnel_attempt ∉
      build_additional_defenses ++ build_better_tunnel ++ build_defenses3 := by decide

lemma right_not_mem_fortify :
    right_funnel_attempt ∉
      build_additional_defenses ++ build_better_tunnel ++ build_defenses3 := by decide

lemma left_attempt_ne_right : left_funnel_attempt ≠ right_funnel_attempt := by decide

/-- Attempts of a post-commitment pass that stops short of the offensive
spawn are all stationary placements (destructors or encryptors). -/
lemma mem_no_spawn_pass_unit {a : SpawnAttempt} {scored : List Loc} {fl : Bool}
    (h : a ∈ build_defenses ++ build_reactive_defense scored
        ++ (if fl then build_left_funnel else build_right_funnel)
        ++ (build_additional_defenses ++ build_better_tunnel ++ build_defenses3)) :
    a.unit_type = UnitType.DESTRUCTOR ∨ a.unit_type = UnitType.ENCRYPTOR := by
  rcases List.mem_append.1 h with h | h
  · rcases List.mem_append.1 h with h | h
    · exact Or.inl (mem_base_unit h)
    · cases fl
      · rw [if_neg (by simp)] at h
        simp only [build_right_funnel, List.mem_singleton] at h
        rw [h]
        exact Or.inr rfl
      · rw [if_pos rfl] at h
        simp only [build_left_funnel, List.mem_singleton] at h
        rw [h]
        exact Or.inr rfl
  · rcases mem_fortify_cases h with h | h | h <;> rw [h] <;> simp

/-- Membership of the two funnel attempts in a post-commitment act list:
only the branch selected by the committed flag contributes its funnel
attempt; no other pass issues either attempt. -/
lemma funnel_mem_shape (scored : List Loc) (fl : Bool) (tail : List SpawnAttempt)
    (hlt : left_funnel_attempt ∉ tail) (hrt : right_funnel_attempt ∉ tail) :
    ((left_funnel_attempt ∈ (build_defenses ++ build_reactive_defense scored
        ++ (if fl then build_left_funnel else build_right_funnel)
        ++ (build_additional_defenses ++ build_better_tunnel ++ build_defenses3)) ++ tail)
      ↔ fl = true)
    ∧ ((right_funnel_attempt ∈ (build_defenses ++ build_reactive_defense scored
        ++ (if fl then build_left_funnel else build_right_funnel)
        ++ (build_additional_defenses ++ build_better_tunnel ++ build_defenses3)) ++ tail)
      ↔ fl = false) := by
  cases fl
  · constructor
    · constructor
      · intro hm
        exfalso
        rcases List.mem_append.1 hm with hm | hm
        · rcases List.mem_append.1 hm with hm | hm
          · rcases List.mem_append.1 hm with hm | hm
            · exact left_not_mem_base _ hm
            · exact left_attempt_ne_right
                (by simpa [build_right_funnel, right_funnel_attempt] using hm)
          · exact left_not_mem_fortify hm
        · exact hlt hm
      · intro hm
        exact absurd hm Bool.false_ne_true
    · constructor
      · intro _
        rfl
      · intro _
        refine List.mem_append.2 (Or.inl (List.mem_append.2 (Or.inl
          (List.mem_append.2 (Or.inr ?_)))))
        simp [build_right_funnel, right_funnel_attempt]
  · constructor
    · constructor
      · intro _
        rfl
      · intro _
        refine List.mem_append.2 (Or.inl (List.mem_append.2 (Or.inl
          (List.mem_append.2 (Or.inr ?_)))))
        simp [build_left_funnel, left_funnel_attempt]
    · constructor
      · intro hm
        exfalso
        rcases List.mem_append.1 hm with hm | hm
        · rcases List.mem_append.1 hm with hm | hm
          · rcases List.mem_append.1 hm with hm | hm
            · exact right_not_mem_base _ hm
            · have hm2 : right_funnel_attempt = left_funnel_attempt := by
                simpa [build_left_funnel, left_funnel_attempt] using hm
              exact left_attempt_ne_right hm2.symm
          · exact right_not_mem_fortify hm
        · exact hrt hm
      · intro hm
        exact absurd hm.symm Bool.false_ne_true

/-- A successful planning pass on a turn after the decision turn issues
the left funnel's encryptor attempt iff the committed flag is `true`, and
the right funnel's iff it is `false`. -/
lemma post_commit_funnel_build {cfg : Config} {gs : GameState} {picks : ℕ → Fin 2}
    {s s' : AlgoState} {acts : List SpawnAttempt}
    (hgt : 3 < gs.turn_number) (h : funnel_strategy cfg gs picks s = .ok (s', acts)) :
    ((left_funnel_attempt ∈ acts) ↔ s.funnel_left = true)
    ∧ ((right_funnel_attempt ∈ acts) ↔ s.funnel_left = false) := by
  have hlt : ¬ gs.turn_number < 3 := by omega
  have hne : gs.turn_number ≠ 3 := by omega
  simp only [funnel_strategy, if_neg hlt, if_neg hne] at h
  by_cases hb : 10 ≤ gs.bits
  · rw [if_pos hb] at h
    cases hbl : s.best_location with
    | none =>
      rw [hbl] at h
      simp at h
    | some bl =>
      rw [hbl] at h
      simp only [Except.ok.injEq, Prod.mk.injEq] at h
      obtain ⟨-, hacts⟩ := h
      subst hacts
      exact funnel_mem_shape s.scored_on_locations s.funnel_left
        [⟨UnitType.PING, [bl], 1000⟩]
        (by simp [left_funnel_attempt]) (by simp [right_funnel_attempt])
  · rw [if_neg hb] at h
    simp only [Except.ok.injEq, Prod.mk.injEq] at h
    obtain ⟨-, hacts⟩ := h
    subst hacts
    have hres := funnel_mem_shape s.scored_on_locations s.funnel_left []
      (by simp) (by simp)
    rw [List.append_nil] at hres
    exact hres

/-! ### Claim theorems -/

/-- C1 (code bug exhibit): on the decision turn with zero stationary
defenders on both candidate paths, both risk scores are 0 and the risk
estimator does return the first (left) candidate `(3, 10)` by the
input-order tie-break; but `funnel_strategy` compares the chosen location
against `(2, 11)`, which is not one of the candidates `[(3, 10), (24, 10)]`,
so it commits the funnel to the right (`funnel_left := false`, right
funnel built) instead of to the side of the lower-risk candidate. -/
theorem decision_turn_commits_right_despite_tie :
    least_damage_spawn_location zeroDefenderGS cfg0 ping_spawn_location_options
        = some (3, 10)
    ∧ funnel_strategy cfg0 zeroDefenderGS picks0 initState =
        .ok ({ scored_on_locations := [], funnel_left := false,
               best_location := some (3, 10) },
             build_defenses ++ build_right_funnel) :=
  ⟨rfl, rfl⟩

/-- C2 (counterexample): with no legal path from the first candidate and a
destructor covering the second candidate's path, the no-path candidate
scores 0 — the MINIMUM — and is selected by `least_damage_spawn_location`,
not excluded as maximal risk. -/
theorem no_path_candidate_is_selected :
    noPathGS.find_path_to_edge (3, 10) = []
    ∧ path_damage noPathGS cfg0 (3, 10) = 0
    ∧ path_damage noPathGS cfg0 (24, 10) = 4
    ∧ least_damage_spawn_location noPathGS cfg0 ping_spawn_location_options
        = some (3, 10) :=
  ⟨rfl, rfl, rfl, rfl⟩

/-- C2 (amended): a candidate whose path trace is empty receives risk
score 0 — the least possible value — so it participates in the caller's
minimum selection with minimal (not maximal) risk; no error is
propagated. -/
theorem empty_path_scores_zero_and_minimal (gs : GameState) (cfg : Config)
    (loc : Loc) (h : gs.find_path_to_edge loc = []) :
    path_damage gs cfg loc = 0
    ∧ ∀ l2 : Loc, path_damage gs cfg loc ≤ path_damage gs cfg l2 := by
  have h0 : path_damage gs cfg loc = 0 := by
    simp [path_damage, h]
  exact ⟨h0, fun l2 => by rw [h0]; exact Nat.zero_le _⟩

/-- Witness for the amended C2 at the concrete no-path fixture. -/
theorem empty_path_scores_zero_and_minimal_witness :
    path_damage noPathGS cfg0 (3, 10) = 0
    ∧ path_damage noPathGS cfg0 (3, 10) ≤ path_damage noPathGS cfg0 (24, 10) :=
  ⟨(empty_path_scores_zero_and_minimal noPathGS cfg0 (3, 10) rfl).1,
   (empty_path_scores_zero_and_minimal noPathGS cfg0 (3, 10) rfl).2 (24, 10)⟩

/-- C3 (counterexample): one opponent-attributed breach at `(10, 2)`
appends the RAW location `(10, 2)` to the tracker log; the translated
location `(10, 5)` is not what is logged. -/
theorem breach_log_entry_is_untranslated :
    (on_action_frame [⟨(10, 2), 2⟩] initState).scored_on_locations = [(10, 2)]
    ∧ (10, 5) ∉ (on_action_frame [⟨(10, 2), 2⟩] initState).scored_on_locations :=
  ⟨rfl, by decide⟩

/-- C3 (amended): every opponent-attributed breach appends the raw breach
location to the tracker log, in event order; the fixed vertical offset +3
is applied at planning time instead — for every logged location the next
planning pass issues a destructor placement attempt at the breach location
translated by +3 (a breach at `(10, 2)` is logged as `(10, 2)` and
reinforced at `(10, 5)`). -/
theorem breach_appends_raw_and_places_translated (breaches : List BreachEvent)
    (s : AlgoState) :
    (on_action_frame breaches s).scored_on_locations
      = s.scored_on_locations
        ++ (breaches.filter (fun b => b.owner ≠ 1)).map (·.location)
    ∧ ∀ l ∈ (on_action_frame breaches s).scored_on_locations,
        (⟨UnitType.DESTRUCTOR, [(l.1, l.2 + 3)], 1⟩ : SpawnAttempt)
          ∈ build_reactive_defense (on_action_frame breaches s).scored_on_locations := by
  refine ⟨rfl, fun l hl => ?_⟩
  exact List.mem_map.2 ⟨l, hl, rfl⟩

/-- Witness for the amended C3 at the spec's breach scenario. -/
theorem breach_appends_raw_and_places_translated_witness :
    (on_action_frame [⟨(10, 2), 2⟩] initState).scored_on_locations = [(10, 2)]
    ∧ (⟨UnitType.DESTRUCTOR, [(10, 5)], 1⟩ : SpawnAttempt)
        ∈ build_reactive_defense
            (on_action_frame [⟨(10, 2), 2⟩] initState).scored_on_locations :=
  ⟨(breach_appends_raw_and_places_translated [⟨(10, 2), 2⟩] initState).1,
   (breach_appends_raw_and_places_translated [⟨(10, 2), 2⟩] initState).2
     (10, 2) (by decide)⟩

/-- C4: for a non-empty traced path, when every attacker the board view
reports along the path is a destructor structure (gamelib's
`get_attackers` returns exactly the stationary units able to deal damage,
and under the stock configuration those are the destructors — the code's
own comment at the accumulation site says "number of enemy destructors"),
the code's score `path_damage` (count × destructor damage) equals the
spec's per-structure accumulation `spec_path_damage` (sum of each
attacker's own configured damage). -/
theorem path_damage_eq_spec_path_damage (gs : GameState) (cfg : Config) (loc : Loc)
    (_hne : gs.find_path_to_edge loc ≠ [])
    (hdes : ∀ p ∈ gs.find_path_to_edge loc,
        ∀ u ∈ gs.get_attackers p, u = UnitType.DESTRUCTOR) :
    path_damage gs cfg loc = spec_path_damage gs cfg loc := by
  unfold path_damage spec_path_damage
  congr 1
  apply List.map_congr_left
  intro p hp
  have h1 : ∀ u ∈ gs.get_attackers p,
      cfg.damage u = cfg.damage UnitType.DESTRUCTOR := fun u hu => by
    rw [hdes p hp u hu]
  rw [List.map_congr_left h1, List.map_const', List.sum_replicate, smul_eq_mul]

/-- Witness for C4 at a concrete board: one destructor over the first path
cell and two over the second give 1·4 + 2·4 = 12 under both formulas. -/
theorem path_damage_eq_spec_path_damage_witness :
    path_damage destructorRowGS cfg0 (3, 10)
      = spec_path_damage destructorRowGS cfg0 (3, 10)
    ∧ path_damage destructorRowGS cfg0 (3, 10) = 12 :=
  ⟨path_damage_eq_spec_path_damage destructorRowGS cfg0 (3, 10)
     (by decide) (by decide), rfl⟩

/-- C5: once the funnel commitment is set on the decision turn, it never
changes: running any sequence of later turns (all numbered above 3) and
breach frames from a committed state leaves `funnel_left` and the chosen
spawn location `best_location` exactly as they were, and every such turn's
planning pass builds the funnel matching the committed side — the
left-funnel attempt is issued iff `funnel_left`, the right-funnel attempt
iff not. -/
theorem funnel_commitment_immutable :
    (∀ (cfg : Config) (es : List Event) (s : AlgoState)
        (r : AlgoState × List SpawnAttempt),
      (∀ gs picks, Event.turn gs picks ∈ es → 3 < gs.turn_number) →
      runEvents cfg es s = .ok r →
      r.1.funnel_left = s.funnel_left ∧ r.1.best_location = s.best_location)
    ∧ (∀ (cfg : Config) (gs : GameState) (picks : ℕ → Fin 2) (s s' : AlgoState)
        (acts : List SpawnAttempt),
      3 < gs.turn_number → funnel_strategy cfg gs picks s = .ok (s', acts) →
      ((left_funnel_attempt ∈ acts) ↔ s.funnel_left = true)
      ∧ ((right_funnel_attempt ∈ acts) ↔ s.funnel_left = false)) :=
  ⟨fun cfg es s r hno h =>
     runEvents_ok_commitment cfg es s r
       (fun gs picks hm => (hno gs picks hm).ne') h,
   fun _ _ _ _ _ _ hgt h => post_commit_funnel_build hgt h⟩

/-- Witness for C5: one committed-right turn (turn 5, bits 10) issues the
right funnel attempt and not the left. -/
theorem funnel_commitment_immutable_witness :
    ((left_funnel_attempt ∈
        build_defenses ++ build_reactive_defense [] ++ build_right_funnel
          ++ (build_additional_defenses ++ build_better_tunnel ++ build_defenses3)
          ++ [⟨UnitType.PING, [(3, 10)], 1000⟩])
      ↔ committedState.funnel_left = true)
    ∧ ((right_funnel_attempt ∈
        build_defenses ++ build_reactive_defense [] ++ build_right_funnel
          ++ (build_additional_defenses ++ build_better_tunnel ++ build_defenses3)
          ++ [⟨UnitType.PING, [(3, 10)], 1000⟩])
      ↔ committedState.funnel_left = false) :=
  funnel_commitment_immutable.2 cfg0 postCommitGS picks0 committedState committedState
    (build_defenses ++ build_reactive_defense [] ++ build_right_funnel
      ++ (build_additional_defenses ++ build_better_tunnel ++ build_defenses3)
      ++ [(⟨UnitType.PING, [(3, 10)], 1000⟩ : SpawnAttempt)])
    (by decide) (by rfl)

/-- C6: on any post-commitment turn with an assigned spawn location,
planning succeeds, and the offensive PING attempt requesting 1000 units at
the committed location is issued iff the bits pool is at least 10; below
the threshold no mobile-offense attempt is issued at all. -/
theorem offensive_spawn_iff_bits_threshold (cfg : Config) (gs : GameState)
    (picks : ℕ → Fin 2) (s : AlgoState) (bl : Loc)
    (hgt : 3 < gs.turn_number) (hbl : s.best_location = some bl) :
    ∃ acts, funnel_strategy cfg gs picks s = .ok (s, acts)
      ∧ (((⟨UnitType.PING, [bl], 1000⟩ : SpawnAttempt) ∈ acts) ↔ 10 ≤ gs.bits)
      ∧ (¬ 10 ≤ gs.bits → ∀ a ∈ acts, a.unit_type ≠ UnitType.PING) := by
  have hlt : ¬ gs.turn_number < 3 := by omega
  have hne : gs.turn_number ≠ 3 := by omega
  by_cases hb : 10 ≤ gs.bits
  · refine ⟨build_defenses ++ build_reactive_defense s.scored_on_locations
      ++ (if s.funnel_left then build_left_funnel else build_right_funnel)
      ++ (build_additional_defenses ++ build_better_tunnel ++ build_defenses3)
      ++ [⟨UnitType.PING, [bl], 1000⟩], ?_, ?_, ?_⟩
    · simp only [funnel_strategy, if_neg hlt, if_neg hne, if_pos hb, hbl]
    · exact ⟨fun _ => hb,
        fun _ => List.mem_append.2 (Or.inr (List.mem_singleton.2 rfl))⟩
    · intro hb2
      exact absurd hb hb2
  · refine ⟨build_defenses ++ build_reactive_defense s.scored_on_locations
      ++ (if s.funnel_left then build_left_funnel else build_right_funnel)
      ++ (build_additional_defenses ++ build_better_tunnel ++ build_defenses3),
      ?_, ?_, ?_⟩
    · simp only [funnel_strategy, if_neg hlt, if_neg hne, if_neg hb]
    · constructor
      · intro hm
        exfalso
        rcases mem_no_spawn_pass_unit hm with h | h <;> simp at h
      · intro hb2
        exact absurd hb2 hb
    · intro _ a ha heq
      rcases mem_no_spawn_pass_unit ha with h | h <;> rw [heq] at h <;>
        exact absurd h (by simp)

/-- Witness for C6 with the bits pool exactly at the threshold. -/
theorem offensive_spawn_iff_bits_threshold_witness :
    ∃ acts, funnel_strategy cfg0 postCommitGS picks0 committedState
        = .ok (committedState, acts)
      ∧ (((⟨UnitType.PING, [(3, 10)], 1000⟩ : SpawnAttempt) ∈ acts)
          ↔ 10 ≤ postCommitGS.bits)
      ∧ (¬ 10 ≤ postCommitGS.bits → ∀ a ∈ acts, a.unit_type ≠ UnitType.PING) :=
  offensive_spawn_iff_bits_threshold cfg0 postCommitGS picks0 committedState (3, 10)
    (by decide) rfl

/-- C7: the tracker log is append-only and opponent-only: after any batch
of breach events with well-formed owner codes (1 = self, 2 = opponent),
the previous log is a prefix of the new log — its length never decreases —
and every appended entry is the location of a breach attributed to the
opponent, never one attributed to the defending side itself. -/
theorem scored_on_log_append_only_opponent (breaches : List BreachEvent)
    (s : AlgoState)
    (hwf : ∀ b ∈ breaches, b.owner = 1 ∨ b.owner = 2) :
    (∃ t, (on_action_frame breaches s).scored_on_locations
        = s.scored_on_locations ++ t
      ∧ ∀ l ∈ t, ∃ b ∈ breaches, b.owner = 2 ∧ b.location = l)
    ∧ s.scored_on_locations.length
        ≤ (on_action_frame breaches s).scored_on_locations.length := by
  constructor
  · refine ⟨(breaches.filter (fun b => b.owner ≠ 1)).map (·.location), by rfl, ?_⟩
    intro l hl
    rcases List.mem_map.1 hl with ⟨b, hb, rfl⟩
    have hmem := List.mem_filter.1 hb
    refine ⟨b, hmem.1, ?_, rfl⟩
    have hne1 : b.owner ≠ 1 := by simpa using hmem.2
    rcases hwf b hmem.1 with h | h
    · exact absurd h hne1
    · exact h
  · simp [on_action_frame]

/-- Witness for C7: one opponent breach and one self breach append exactly
the opponent's location. -/
theorem scored_on_log_append_only_opponent_witness :
    (∃ t, (on_action_frame [⟨(10, 2), 2⟩, ⟨(5, 5), 1⟩] initState).scored_on_locations
        = initState.scored_on_locations ++ t
      ∧ ∀ l ∈ t, ∃ b ∈ ([⟨(10, 2), 2⟩, ⟨(5, 5), 1⟩] : List BreachEvent),
          b.owner = 2 ∧ b.location = l)
    ∧ initState.scored_on_locations.length
        ≤ (on_action_frame [⟨(10, 2), 2⟩, ⟨(5, 5), 1⟩] initState).scored_on_locations.length :=
  scored_on_log_append_only_opponent [⟨(10, 2), 2⟩, ⟨(5, 5), 1⟩] initState (by decide)

/-- C8 (counterexample): the first builder's target row contains
`(13, 12)` while the second (shadowing) builder's row does not, so the two
passes do not attempt the same set of target locations. -/
theorem additional_defense_rows_differ :
    (13, 12) ∈ build_additional_defenses_first_locations
    ∧ (13, 12) ∉ build_additional_defenses_locations := by decide

/-- C8 (amended): the two builders follow the same gapped row pattern at
height 12, but the second — the definition Python keeps — iterates columns
1–12 only, so its target set is a strict subset of the first's, omitting
exactly `(13, 12)` and `(14, 12)`. -/
theorem additional_defense_rows_subset :
    (∀ l ∈ build_additional_defenses_locations,
        l ∈ build_additional_defenses_first_locations)
    ∧ (∀ l ∈ build_additional_defenses_first_locations,
        l ∈ build_additional_defenses_locations ∨ l = (13, 12) ∨ l = (14, 12))
    ∧ (14, 12) ∉ build_additional_defenses_locations := by decide

/-- Witness for the amended C8 at a shared target location. -/
theorem additional_defense_rows_subset_witness :
    (1, 12) ∈ build_additional_defenses_first_locations :=
  additional_defense_rows_subset.1 (1, 12) (by decide)

/-- C9: the risk score is non-negative, and adding defenders never lowers
it: if a second board traces the same path for the entry location but
reports at least as many attackers at every traversed location, its score
is at least the first board's. -/
theorem path_damage_nonneg_monotone (gs gs2 : GameState) (cfg : Config) (loc : Loc)
    (hpath : gs2.find_path_to_edge loc = gs.find_path_to_edge loc)
    (hmore : ∀ p ∈ gs.find_path_to_edge loc,
        (gs.get_attackers p).length ≤ (gs2.get_attackers p).length) :
    0 ≤ path_damage gs cfg loc
    ∧ path_damage gs cfg loc ≤ path_damage gs2 cfg loc := by
  refine ⟨Nat.zero_le _, ?_⟩
  unfold path_damage
  rw [hpath]
  exact List.sum_le_sum fun p hp => Nat.mul_le_mul_right _ (hmore p hp)

/-- Witness for C9: placing one destructor over the candidate's cell takes
the score from 0 to a non-smaller value. -/
theorem path_damage_nonneg_monotone_witness :
    0 ≤ path_damage zeroDefenderGS cfg0 (3, 10)
    ∧ path_damage zeroDefenderGS cfg0 (3, 10)
        ≤ path_damage oneDefenderGS cfg0 (3, 10) :=
  path_damage_nonneg_monotone zeroDefenderGS oneDefenderGS cfg0 (3, 10) rfl (by decide)

/-- C10 (counterexample): a run containing a turn numbered 4, no turn 3,
and a bits pool of 9 completes planning successfully — the unassigned
spawn location is never read because the pool is below the threshold — so
the claim that planning always fails on such sequences is too strong; no
offensive PING attempt is issued either. -/
theorem missing_decision_turn_below_threshold_plans_ok :
    runEvents cfg0 [Event.turn lowBitsGS picks0] initState
      = .ok (initState, build_defenses ++ build_left_funnel
          ++ (build_additional_defenses ++ build_better_tunnel ++ build_defenses3))
    ∧ ∀ a ∈ build_defenses ++ build_left_funnel
          ++ (build_additional_defenses ++ build_better_tunnel ++ build_defenses3),
        a.unit_type ≠ UnitType.PING :=
  ⟨rfl, by decide⟩

/-- C10 (amended): the `best_location` lifecycle: (i) from the initial
state, any run whose turns all avoid number 3 leaves `best_location`
unassigned; (ii) a turn numbered above 3 whose bits pool clears the spawn
threshold then fails planning with the unassigned-location error instead
of issuing a spawn; (iii) conversely a successful decision-turn pass
always assigns one of the two fixed candidates `(3, 10)`, `(24, 10)`. -/
theorem best_location_assigned_only_on_decision_turn :
    (∀ (cfg : Config) (es : List Event) (r : AlgoState × List SpawnAttempt),
      (∀ gs picks, Event.turn gs picks ∈ es → gs.turn_number ≠ 3) →
      runEvents cfg es initState = .ok r → r.1.best_location = none)
    ∧ (∀ (cfg : Config) (gs : GameState) (picks : ℕ → Fin 2) (s : AlgoState),
      3 < gs.turn_number → 10 ≤ gs.bits → s.best_location = none →
      funnel_strategy cfg gs picks s = .error PlanError.unassignedBestLocation)
    ∧ (∀ (cfg : Config) (gs : GameState) (picks : ℕ → Fin 2) (s s' : AlgoState)
        (acts : List SpawnAttempt),
      gs.turn_number = 3 → funnel_strategy cfg gs picks s = .ok (s', acts) →
      s'.best_location = some (3, 10) ∨ s'.best_location = some (24, 10)) := by
  refine ⟨?_, ?_, ?_⟩
  · intro cfg es r hno h
    exact (runEvents_ok_commitment cfg es initState r hno h).2
  · intro cfg gs picks s hgt hb hbl
    have hlt : ¬ gs.turn_number < 3 := by omega
    have hne : gs.turn_number ≠ 3 := by omega
    simp only [funnel_strategy, if_neg hlt, if_neg hne, if_pos hb, hbl]
  · intro cfg gs picks s s' acts h3 h
    have hlt : ¬ gs.turn_number < 3 := by omega
    simp only [funnel_strategy, if_neg hlt, if_pos h3] at h
    rcases least_damage_spawn_location_pair gs cfg (3, 10) (24, 10) with hd | hd
    all_goals
      simp only [ping_spawn_location_options] at h
      rw [hd] at h
      dsimp only at h
      rw [if_neg (by decide)] at h
      simp only [Except.ok.injEq, Prod.mk.injEq] at h
      obtain ⟨hs, -⟩ := h
      rw [← hs]
      simp

/-- Witness for the amended C10: turn 5, bits 10, unassigned spawn
location — planning fails with the unassigned-location error. -/
theorem best_location_assigned_only_on_decision_turn_witness :
    funnel_strategy cfg0 postCommitGS picks0 initState
      = .error PlanError.unassignedBestLocation :=
  best_location_assigned_only_on_decision_turn.2.1 cfg0 postCommitGS picks0 initState
    (by decide) (by decide) rfl
